import Mathlib

/-!
# Signal Quality AI — verification of the scoring pipeline

Shallow embedding of the buyer-intent signal scoring pipeline
(`signal-quality-ai`, TypeScript) into Lean 4, together with theorems
settling the specification claims about it.

Source files embedded here:
* `src/utils/temporal.ts` — recency / velocity helpers;
* `src/analyzers/signalAnalyzer.ts` — the analysis stage's inline
  velocity computation;
* `src/analyzers/llmExtractor.ts` — per-signal qualitative enrichment
  (the external call is modelled as a function parameter);
* `src/analyzers/patternMatcher.ts` — declarative pattern matching;
* `src/scoring/qualityScorer.ts` — score fusion, confidence, priority;
* `src/recommendations/actionEngine.ts` — action recommendation.

Modelling conventions:
* JavaScript numbers are embedded as `ℚ` wherever the program only does
  field arithmetic and comparisons; the one genuinely real-valued
  operation (`Math.pow(0.5, daysAgo / halfLife)` in the recency score)
  is embedded over `ℝ`.
* `Math.round x` is `⌊x + 1/2⌋` (JavaScript rounds half-up).
* Optional / absent JSON fields are `Option`; JavaScript truthiness
  tests (`if (x)`) are embedded explicitly, including their behaviour on
  `0` and on the empty string.
* Timestamps are embedded as numbers (milliseconds), and
  `differenceInDays` / `differenceInHours` as the corresponding
  truncated differences taken at the call sites.
-/

namespace SignalQuality

/- The rational-arithmetic primitives are sealed in the library; reopen
them for this file so that concrete runs of the embedded pipeline reduce
by `decide`. -/
attribute [local semireducible] Rat.add Rat.mul Rat.sub Rat.inv

/-! ## Basic enumerations (from `src/utils/schemas.ts`) -/

/-- `'low' | 'medium' | 'high'` levels (urgency, specificity, false-positive
risk, confidence bands). -/
inductive Level where
  | low
  | medium
  | high
deriving DecidableEq, Repr

/-- Buying stage enumeration. -/
inductive Stage where
  | awareness
  | consideration
  | decision
  | unknown
deriving DecidableEq, Repr

/-- Sentiment enumeration. -/
inductive Sentiment where
  | positive
  | negative
  | neutral
deriving DecidableEq, Repr

/-- Velocity trend enumeration (`src/utils/temporal.ts`). -/
inductive Velocity where
  | increasing
  | stable
  | decreasing
deriving DecidableEq, Repr

/-- Priority bands produced by the quality scorer. -/
inductive Priority where
  | ignore
  | low
  | medium
  | high
  | urgent
deriving DecidableEq, Repr

/-! ## JavaScript-semantics helpers -/

/-- `Math.round` on a rational: JavaScript rounds half-up (`round x = ⌊x + 0.5⌋`). -/
def jsRound (q : ℚ) : ℤ := Rat.floor (q + 1 / 2)

/-- `Math.round(x * 100) / 100` — rounding to two decimals, used for
pattern confidence and conversion probability. -/
def jsRound2 (q : ℚ) : ℚ := (jsRound (q * 100) : ℚ) / 100

/-- JavaScript truthiness of an optional string (`undefined` and `""` are falsy). -/
def truthyStr : Option String → Bool
  | none => false
  | some s => !(s == "")

/-- JavaScript truthiness of an optional number (`undefined` and `0` are falsy). -/
def truthyNum : Option ℚ → Bool
  | none => false
  | some q => !(q == 0)

/-- JavaScript truthiness of an optional natural number (`undefined` and `0` are falsy). -/
def truthyNat : Option ℕ → Bool
  | none => false
  | some n => !(n == 0)

/-- Bool-valued list-prefix test on characters (for `String.includes`). -/
def startsChars : List Char → List Char → Bool
  | [], _ => true
  | _ :: _, [] => false
  | a :: as, b :: bs => a == b && startsChars as bs

/-- Bool-valued substring test on characters. -/
def containsChars (needle : List Char) : List Char → Bool
  | [] => startsChars needle []
  | b :: bs => startsChars needle (b :: bs) || containsChars needle bs

/-- JavaScript `hay.includes(needle)` on strings. -/
def strIncludes (hay needle : String) : Bool :=
  containsChars needle.toList hay.toList

/-- Lookup in a JSON record embedded as an association list. -/
def lookupStr (l : List (String × ℚ)) (k : String) : Option ℚ :=
  (l.find? (fun p => p.1 == k)).map (·.2)

/-- JavaScript `String.prototype.replace` with a string pattern replaces only
the first occurrence. -/
def jsReplaceOnce (s pat rep : String) : String :=
  match s.splitOn pat with
  | [] => s
  | [x] => x
  | x :: y :: rest => x ++ rep ++ String.intercalate pat (y :: rest)

/-- `[...new Set(l)]` — deduplication keeping the first occurrence of each
element, in order. -/
def jsSetDedup : List String → List String :=
  go []
where
  go (seen : List String) : List String → List String
    | [] => []
    | x :: xs => if x ∈ seen then go seen xs else x :: go (x :: seen) xs

/-! ## Data model

`Signal.rawData` carries the type-specific fields that the pattern matcher
and the action engine read (`src/utils/schemas.ts` leaves them free-form;
we embed exactly the fields the embedded code accesses, each optional).
-/

/-- Raw signal fields, as read by `patternMatcher.ts` and `actionEngine.ts`.
`metaDepartment` and `metaIsCompetitor` embed the two `metadata` entries
those files access. -/
structure RawSignal where
  type : String
  action : Option String := none
  content : Option String := none
  page : Option String := none
  duration : Option ℚ := none
  visitNumber : Option ℚ := none
  bounceRate : Option ℚ := none
  daysInRole : Option ℚ := none
  newsType : Option String := none
  asset : Option String := none
  clickedLink : Option Bool := none
  company : Option String := none
  metaDepartment : Option String := none
  metaIsCompetitor : Bool := false
deriving DecidableEq, Repr

/-- `QualitativeContext` — partially populated before enrichment
(only `urgency`, heuristically), fully populated after. -/
structure QualCtx where
  painPoints : Option (List String) := none
  urgency : Option Level := none
  specificity : Option Level := none
  buyingStage : Option Stage := none
  sentiment : Option Sentiment := none
  falsePositiveRisk : Option Level := none
  confidence : Option ℚ := none
deriving DecidableEq, Repr

/-- `TemporalFactors` of an analyzed signal. -/
structure TemporalFactors where
  recency : ℚ
  frequency : ℕ
  velocity : Option Velocity := none
deriving DecidableEq, Repr

/-- `AnalyzedSignal` — a signal plus its quantitative score, temporal
factors and (incrementally populated) qualitative context. -/
structure AnalyzedSignal where
  type : String
  rawData : RawSignal
  quantitativeScore : ℚ
  qualitativeContext : QualCtx
  temporalFactors : TemporalFactors
deriving DecidableEq, Repr

/-- `Prospect` — the target person/account. -/
structure Prospect where
  company : String
  role : Option String := none
  industry : Option String := none
  companySize : Option String := none
  location : Option String := none
  email : Option String := none
deriving DecidableEq, Repr

/-! ## Temporal analyzer (`src/utils/temporal.ts`) -/

/-- `calculateRecencyScore` (`temporal.ts:20-41`), embedded at the
`daysAgo` interface: the source computes
`daysAgo = differenceInDays(now, parseISO(timestamp))`, an integer, with
`undefined` timestamps short-circuiting to `0.5`.  We take that integer
(or `none` for a missing timestamp) directly.  `Math.pow(0.5, d / h)` is
embedded as the real power `(1/2) ^ (d / h)`. -/
noncomputable def calculateRecencyScore (daysAgo : Option ℤ) (halfLifeDays : ℝ) : ℝ :=
  match daysAgo with
  | none => 1 / 2
  | some d =>
    if d < 0 then 1
    else max 0 (min 1 ((1 / 2 : ℝ) ^ ((d : ℝ) / halfLifeDays)))

/-- Insertion into an ascending sorted list (after equal elements);
numeric sort result is unique as a sorted permutation, so this embeds
JavaScript's `Array.prototype.sort` with an ascending numeric comparator. -/
def insertAsc (x : ℚ) : List ℚ → List ℚ
  | [] => [x]
  | y :: ys => if x ≤ y then x :: y :: ys else y :: insertAsc x ys

/-- Ascending numeric sort (insertion sort). -/
def sortAsc (l : List ℚ) : List ℚ := l.foldr insertAsc []

/-- Inter-arrival gaps of a list, in truncated hours:
`differenceInHours(sorted[i], sorted[i-1])` for consecutive elements of
the (millisecond) timestamp list.  After sorting the difference is
non-negative, so truncation is `⌊·⌋`. -/
def hourGaps : List ℚ → List ℤ
  | a :: b :: rest => Rat.floor ((b - a) / 3600000) :: hourGaps (b :: rest)
  | _ => []

/-- `calculateVelocity` (`temporal.ts:46-74`).  Timestamps are embedded
as millisecond values.  With exactly two timestamps the source computes
`midpoint = 0`, divides by zero (`firstHalfAvg = NaN`) and both `NaN`
comparisons are false, so the result is `'stable'`; the `midpoint = 0`
branch below embeds that behaviour. -/
def calculateVelocity (timestamps : List ℚ) : Velocity :=
  if timestamps.length < 2 then .stable
  else
    let intervals := hourGaps (sortAsc timestamps)
    let midpoint := intervals.length / 2
    if midpoint = 0 then .stable
    else
      let firstHalfAvg : ℚ := ((intervals.take midpoint).map (fun i => (i : ℚ))).sum / midpoint
      let secondHalfAvg : ℚ :=
        ((intervals.drop midpoint).map (fun i => (i : ℚ))).sum / (intervals.length - midpoint : ℕ)
      if secondHalfAvg < firstHalfAvg * (7 / 10) then .increasing
      else if secondHalfAvg > firstHalfAvg * (13 / 10) then .decreasing
      else .stable

/-- The velocity computation inlined in the analysis stage
(`signalAnalyzer.ts`, `analyzeSignal`): it does NOT call
`calculateVelocity`; it sorts the same-type timestamps ascending and
compares only the FIRST inter-arrival gap with the LAST one
(`getTime()` differences, in milliseconds).  Fewer than 3 timestamps
leave velocity `'stable'`. -/
def analyzeVelocity (timestamps : List ℚ) : Velocity :=
  let sorted := sortAsc timestamps
  if 3 ≤ sorted.length then
    let firstGap := sorted.getD 1 0 - sorted.getD 0 0
    let lastGap := sorted.getD (sorted.length - 1) 0 - sorted.getD (sorted.length - 2) 0
    if lastGap < firstGap * (7 / 10) then .increasing
    else if lastGap > firstGap * (13 / 10) then .decreasing
    else .stable
  else .stable

/-! ## Matched patterns (`src/analyzers/patternMatcher.ts`) — record type -/

/-- `MatchedPattern` — a pattern judged to match one request's signal set.
`signals` lists `(type, quantitativeScore)` of the matched signals. -/
structure MatchedPattern where
  pattern : String
  name : String
  signals : List (String × ℚ)
  historicalConversion : ℚ
  avgDaysToClose : Option ℚ
  reasoning : String
  confidence : ℚ
  matchScore : ℤ
  weight : ℚ
  isFalsePositive : Bool
deriving DecidableEq, Repr

/-! ## Quality scorer (`src/scoring/qualityScorer.ts`) -/

/-- `WeightsConfig` — the weight configuration consumed by the quality
scorer.  The multiplier tables are embedded as total functions on the
enumerations; `signalTypeWeights` and the prospect-fit company-size map
as association lists (JSON records). -/
structure WeightsConfig where
  signalTypeWeights : List (String × ℚ)
  urgencyMult : Level → ℚ
  specificityMult : Level → ℚ
  buyingStageMult : Stage → ℚ
  falsePositiveRiskMult : Level → ℚ
  velocityMult : Velocity → ℚ
  wSignals : ℚ
  wPatterns : ℚ
  wFit : ℚ
  pfCompanySize : Option (List (String × ℚ)) := none
  pfIndustrySaas : Option ℚ := none
  pfIndustryTechnology : Option ℚ := none

/-- `getDefaultWeights` (`qualityScorer.ts:109-137`) — the built-in
defaults used when the weights file cannot be loaded. -/
def getDefaultWeights : WeightsConfig where
  signalTypeWeights :=
    [("linkedin_engagement", 1 / 4), ("website_visit", 22 / 100),
     ("content_download", 18 / 100), ("email_interaction", 15 / 100),
     ("job_change", 1 / 10), ("company_news", 8 / 100),
     ("hiring_signals", 7 / 100), ("tech_stack_change", 12 / 100),
     ("intent_data", 1 / 10)]
  urgencyMult := fun | .high => 13 / 10 | .medium => 1 | .low => 7 / 10
  specificityMult := fun | .high => 5 / 4 | .medium => 1 | .low => 4 / 5
  buyingStageMult := fun
    | .decision => 7 / 5 | .consideration => 23 / 20
    | .awareness => 9 / 10 | .unknown => 17 / 20
  falsePositiveRiskMult := fun | .low => 6 / 5 | .medium => 1 | .high => 3 / 5
  velocityMult := fun | .increasing => 6 / 5 | .stable => 1 | .decreasing => 4 / 5
  wSignals := 2 / 5
  wPatterns := 2 / 5
  wFit := 1 / 5

/-- Per-signal weighted-score data (`SignalScoreData`). -/
structure SignalScoreData where
  signal : String
  baseScore : ℚ
  contextBoost : ℚ
  finalScore : ℤ
  weight : ℤ
  multUrgency : ℚ
  multSpecificity : ℚ
  multBuyingStage : ℚ
  multFalsePositiveRisk : ℚ
  multRecency : ℚ
  multVelocity : ℚ
deriving DecidableEq, Repr

/-- `calculateSignalWeight` (`qualityScorer.ts:142-198`): multiply the
quantitative score by six multipliers; `finalScore = Math.round(·)` with
NO clamp.  The base-weight lookup embeds the `|| 0.1` fallback (a
configured weight of `0` is falsy and also falls back). -/
def calculateSignalWeight (signal : AnalyzedSignal) (weights : WeightsConfig) :
    SignalScoreData :=
  let baseWeight : ℚ :=
    match lookupStr weights.signalTypeWeights signal.type with
    | some b => if b = 0 then 1 / 10 else b
    | none => 1 / 10
  let urgencyMultiplier : ℚ :=
    match signal.qualitativeContext.urgency with
    | some u => weights.urgencyMult u
    | none => 1
  let specificityMultiplier : ℚ :=
    match signal.qualitativeContext.specificity with
    | some s => weights.specificityMult s
    | none => 1
  let buyingStageMultiplier : ℚ :=
    match signal.qualitativeContext.buyingStage with
    | some s => weights.buyingStageMult s
    | none => 1
  let falsePositiveMultiplier : ℚ :=
    match signal.qualitativeContext.falsePositiveRisk with
    | some r => weights.falsePositiveRiskMult r
    | none => 1
  let recencyMultiplier : ℚ := 1 + (signal.temporalFactors.recency - 1 / 2) * (4 / 10)
  let velocityMultiplier : ℚ :=
    match signal.temporalFactors.velocity with
    | some v => weights.velocityMult v
    | none => 1
  let contextualScore : ℚ :=
    signal.quantitativeScore * urgencyMultiplier * specificityMultiplier *
      buyingStageMultiplier * falsePositiveMultiplier * recencyMultiplier *
      velocityMultiplier
  { signal := signal.type
    baseScore := signal.quantitativeScore
    contextBoost := contextualScore - signal.quantitativeScore
    finalScore := jsRound contextualScore
    weight := jsRound (baseWeight * 100)
    multUrgency := urgencyMultiplier
    multSpecificity := specificityMultiplier
    multBuyingStage := buyingStageMultiplier
    multFalsePositiveRisk := falsePositiveMultiplier
    multRecency := recencyMultiplier
    multVelocity := velocityMultiplier }

/-- `calculateSignalScores` (`qualityScorer.ts:203-217`): weighted
average of the per-signal `finalScore`s by their rounded `weight`s,
rounded; `0` when the total weight is not positive. -/
def calculateSignalScores (enrichedSignals : List AnalyzedSignal)
    (weights : WeightsConfig) : List SignalScoreData × ℤ :=
  let signalScores := enrichedSignals.map (fun s => calculateSignalWeight s weights)
  let totalWeight : ℤ := (signalScores.map (·.weight)).sum
  let weightedSum : ℤ := (signalScores.map (fun s => s.finalScore * s.weight)).sum
  let averageScore : ℚ := if 0 < totalWeight then (weightedSum : ℚ) / (totalWeight : ℚ) else 0
  (signalScores, jsRound averageScore)

/-- `calculatePatternScore` (`qualityScorer.ts:222-251`).  Note the
non-symmetric normalisation: the numerator scales each conversion rate
by `confidence * (weight / 100)` but the denominator sums only the
confidences.  The `|| 0.5` / `|| 100` fallbacks (falsy on `0`) are
embedded. -/
def calculatePatternScore (patterns : List MatchedPattern) : ℤ × ℚ :=
  if patterns.length = 0 then (50, 1 / 2)
  else
    let weightedScores := patterns.map (fun p =>
      let conf := if p.confidence = 0 then 1 / 2 else p.confidence
      let patternWeight := if p.weight = 0 then 100 else p.weight
      p.historicalConversion * conf * (patternWeight / 100))
    let totalWeight := (patterns.map (fun p =>
      if p.confidence = 0 then 1 / 2 else p.confidence)).sum
    let patternScore := weightedScores.sum / totalWeight
    let avgConfidence := totalWeight / (patterns.length : ℚ)
    (jsRound patternScore, avgConfidence)

/-- The company-size category map in `calculateProspectFit`. -/
def sizeCategoryMap : List (String × String) :=
  [("1-10", "smb"), ("11-50", "smb"), ("51-200", "midmarket"),
   ("201-1000", "midmarket"), ("1000+", "enterprise"),
   ("50-200", "midmarket"), ("100-250", "midmarket")]

/-- Decision-maker keyword list in `calculateProspectFit`. -/
def decisionMakerRoles : List String :=
  ["vp", "director", "head of", "chief", "cxo", "ceo", "cto", "cro"]

/-- `calculateProspectFit` (`qualityScorer.ts:256-303`): start at 50,
multiply by company-size / industry / role multipliers, then
`Math.min(100, Math.round(fitScore))` (no lower clamp). -/
def calculateProspectFit (prospect : Prospect) (weights : WeightsConfig) : ℤ :=
  let fitScore : ℚ := 50
  let fitScore :=
    if truthyStr prospect.companySize then
      let sizeCategory :=
        ((sizeCategoryMap.find? (fun p => p.1 == prospect.companySize.getD "")).map (·.2)).getD "other"
      let multiplier : ℚ :=
        match weights.pfCompanySize with
        | some m =>
          match lookupStr m sizeCategory with
          | some v => if v = 0 then 1 else v
          | none => 1
        | none => 1
      fitScore * multiplier
    else fitScore
  let fitScore :=
    if truthyStr prospect.industry then
      let industryLower := (prospect.industry.getD "").toLower
      let industryMultiplier : ℚ :=
        if strIncludes industryLower "saas" || strIncludes industryLower "software" then
          match weights.pfIndustrySaas with
          | some v => if v = 0 then 23 / 20 else v
          | none => 23 / 20
        else if strIncludes industryLower "tech" || strIncludes industryLower "technology" then
          match weights.pfIndustryTechnology with
          | some v => if v = 0 then 11 / 10 else v
          | none => 11 / 10
        else 1
      fitScore * industryMultiplier
    else fitScore
  let fitScore :=
    if truthyStr prospect.role then
      let roleLower := (prospect.role.getD "").toLower
      if decisionMakerRoles.any (fun r => strIncludes roleLower r) then fitScore * (6 / 5)
      else if strIncludes roleLower "manager" then fitScore * (21 / 20)
      else fitScore
    else fitScore
  min 100 (jsRound fitScore)

/-- `calculateConfidence` (`qualityScorer.ts:308-326`) — the discrete
confidence band, embedded branch for branch. -/
def calculateConfidence (signalCount patternCount : ℕ) (dataCompleteness : ℚ) :
    Level :=
  if 6 ≤ signalCount ∨ (5 ≤ signalCount ∧ 1 ≤ patternCount) ∨
      (3 ≤ signalCount ∧ 1 ≤ patternCount ∧ (4 : ℚ) / 5 ≤ dataCompleteness) then
    .high
  else if signalCount < 3 ∧ patternCount = 0 then .low
  else if 2 ≤ signalCount ∧ 1 ≤ patternCount then .medium
  else if signalCount < 3 then .low
  else .medium

/-- `determinePriority` (`qualityScorer.ts:331-347`). -/
def determinePriority (qualityScore : ℤ) (falsePositiveDetected : Bool) : Priority :=
  if falsePositiveDetected then .ignore
  else if 85 ≤ qualityScore then .urgent
  else if 70 ≤ qualityScore then .high
  else if 50 ≤ qualityScore then .medium
  else if 30 ≤ qualityScore then .low
  else .ignore

/-- Rendering of an embedded number inside a template string.  Faithful
to JavaScript for integral values (the only values this development
evaluates in strings); the decimal rendering of non-integral numbers is
not modelled further. -/
def jsNumStr (q : ℚ) : String := if q.den = 1 then toString q.num else toString q

/-- String form of a buying stage (template `${context.buyingStage}`). -/
def stageStr : Stage → String
  | .awareness => "awareness"
  | .consideration => "consideration"
  | .decision => "decision"
  | .unknown => "unknown"

/-- Insertion into a descending sorted list, after elements with
strictly greater key — a stable descending sort step, embedding
JavaScript's stable `sort((a, b) => b.finalScore - a.finalScore)`. -/
def insertScoreDesc (x : SignalScoreData) : List SignalScoreData → List SignalScoreData
  | [] => [x]
  | y :: ys => if y.finalScore < x.finalScore then x :: y :: ys else y :: insertScoreDesc x ys

/-- Stable descending sort of signal scores by `finalScore`. -/
def sortScoresDesc (l : List SignalScoreData) : List SignalScoreData :=
  l.foldl (fun acc x => insertScoreDesc x acc) []

/-- `generateReasoning` (`qualityScorer.ts:352-384`).  NOTE: in the
source this function sorts the caller's `signalScores.scores` array IN
PLACE; `calculateQualityScore` below therefore builds the breakdown from
the sorted list. -/
def generateReasoning (signalScores : List SignalScoreData)
    (patterns : List MatchedPattern) (qualityScore : ℤ) : String :=
  let topSignals := (sortScoresDesc signalScores).take 3
  let reasoning : List String :=
    (if 0 < topSignals.length then
      ["Top signals: " ++ String.intercalate ", " (topSignals.map (·.signal))]
     else []) ++
    (match patterns with
     | [] => []
     | topPattern :: _ =>
       ["Matched pattern: \"" ++ topPattern.name ++ "\" (" ++
        jsNumStr topPattern.historicalConversion ++ "% historical conversion)"]) ++
    [if 85 ≤ qualityScore then
       "Exceptionally high-quality signal cluster indicating strong buying intent"
     else if 70 ≤ qualityScore then
       "Strong signals with good context and conversion potential"
     else if 50 ≤ qualityScore then
       "Moderate quality signals - monitor for additional confirmation"
     else "Weak signals or high false positive risk - low priority"]
  String.intercalate ". " reasoning

/-- `generateSignalReasoning` (`qualityScorer.ts:481-526`). -/
def generateSignalReasoning (signal : AnalyzedSignal) (scoreData : SignalScoreData) :
    String :=
  let reasons : List String :=
    [if 80 ≤ scoreData.baseScore then "High-value signal type"
     else if 60 ≤ scoreData.baseScore then "Moderate-value signal"
     else "Low-value signal type"] ++
    (match signal.qualitativeContext.painPoints with
     | some ps =>
       if 0 < ps.length then
         ["Explicit pain points: " ++ String.intercalate ", " (ps.take 2)]
       else []
     | none => []) ++
    (if signal.qualitativeContext.urgency = some .high then
       ["High urgency indicators"] else []) ++
    (if signal.qualitativeContext.specificity = some .high then
       ["Highly specific requirements mentioned"] else []) ++
    (if signal.qualitativeContext.buyingStage = some .decision ∨
        signal.qualitativeContext.buyingStage = some .consideration then
       ["Buyer is in " ++ stageStr ((signal.qualitativeContext.buyingStage).getD .unknown) ++
        " stage"]
     else []) ++
    (if (8 : ℚ) / 10 < signal.temporalFactors.recency then ["Very recent signal"] else []) ++
    (if signal.temporalFactors.velocity = some .increasing then
       ["Increasing engagement velocity"] else []) ++
    (if 2 < signal.temporalFactors.frequency then
       ["Repeated signal (" ++ toString signal.temporalFactors.frequency ++ "x)"] else [])
  String.intercalate ". " reasons

/-- One entry of the quality-score breakdown. -/
structure BreakdownEntry where
  signal : String
  weight : ℤ
  score : ℤ
  reasoning : String
  ctxPainPoints : List String
  ctxUrgency : Option Level
  ctxSpecificity : Option Level
  ctxBuyingStage : Option Stage
deriving DecidableEq, Repr

/-- `QualityScoreResult` (`qualityScorer.ts:53-81`).  The three raw
component scores and the three weights are flattened into fields. -/
structure QualityScoreResult where
  qualityScore : ℤ
  confidence : Level
  priorityLevel : Priority
  breakdown : List BreakdownEntry
  patterns : List MatchedPattern
  reasoning : String
  signalScore : ℤ
  patternScore : ℤ
  fitScore : ℤ
  wSignals : ℚ
  wPatterns : ℚ
  wFit : ℚ
deriving DecidableEq, Repr

/-- `calculateQualityScore` (`qualityScorer.ts:389-476`), parameterised
by the weights configuration (`loadWeights()` falls back to
`getDefaultWeights`).  The breakdown zips the DESCENDING-SORTED score
list with the unsorted signal list: `generateReasoning` sorts the shared
`signalScores` array in place before step 9 reads it by index. -/
def calculateQualityScore (enrichedSignals : List AnalyzedSignal)
    (patterns : List MatchedPattern) (prospect : Prospect)
    (weights : WeightsConfig) : QualityScoreResult :=
  let (signalScores, averageScore) := calculateSignalScores enrichedSignals weights
  let patternScore := (calculatePatternScore patterns).1
  let fitScore := calculateProspectFit prospect weights
  let qualityScore := jsRound
    ((averageScore : ℚ) * weights.wSignals + (patternScore : ℚ) * weights.wPatterns +
     (fitScore : ℚ) * weights.wFit)
  let dataCompleteness : ℚ := min 1 ((enrichedSignals.length : ℚ) / 5)
  let confidence := calculateConfidence enrichedSignals.length patterns.length dataCompleteness
  let isFalsePositive := (patterns.find? (·.isFalsePositive)).isSome
  let priorityLevel := determinePriority qualityScore isFalsePositive
  let reasoning := generateReasoning signalScores patterns qualityScore
  let breakdown := List.zipWith
    (fun (scoreData : SignalScoreData) (signal : AnalyzedSignal) =>
      { signal := signal.type
        weight := scoreData.weight
        score := scoreData.finalScore
        reasoning := generateSignalReasoning signal scoreData
        ctxPainPoints := (signal.qualitativeContext.painPoints).getD []
        ctxUrgency := signal.qualitativeContext.urgency
        ctxSpecificity := signal.qualitativeContext.specificity
        ctxBuyingStage := signal.qualitativeContext.buyingStage : BreakdownEntry })
    (sortScoresDesc signalScores) enrichedSignals
  { qualityScore := max 0 (min 100 qualityScore)
    confidence := confidence
    priorityLevel := priorityLevel
    breakdown := breakdown
    patterns := patterns
    reasoning := reasoning
    signalScore := averageScore
    patternScore := patternScore
    fitScore := fitScore
    wSignals := weights.wSignals
    wPatterns := weights.wPatterns
    wFit := weights.wFit }

/-! ## Pattern matcher (`src/analyzers/patternMatcher.ts`) -/

/-- `PatternCriteria` — one declarative criterion.  `category` appears
in the source interface but is never tested by `signalMatchesCriteria`;
it is kept (and ignored) here as in the source. -/
structure PatternCriteria where
  type : String
  action : Option String := none
  pageIncl : Option String := none
  minScore : Option ℚ := none
  minVisits : Option ℕ := none
  durationMax : Option ℚ := none
  bounceRateMin : Option ℚ := none
  daysInRoleMin : Option ℚ := none
  daysInRoleMax : Option ℚ := none
  painPoint : Bool := false
  newsType : Option String := none
  department : Option String := none
  bofu : Bool := false
  noComment : Bool := false
  clickedLink : Option Bool := none
  category : Option String := none
deriving DecidableEq, Repr

/-- `Pattern` — a configured pattern.  A missing `optionalSignals` array
behaves as the empty list (the source guards `if (pattern.optionalSignals)`). -/
structure Pattern where
  id : String
  name : String
  description : String
  requiredSignals : List PatternCriteria
  optionalSignals : List PatternCriteria := []
  historicalConversion : ℚ
  avgDaysToClose : Option ℚ := none
  confidence : ℚ
  weight : ℚ
  isFalsePositive : Bool := false
deriving DecidableEq, Repr

/-- `signalMatchesCriteria` (`patternMatcher.ts:174-257`), check for
check in source order.  Each `if (criteria.x && …)` guard embeds the
JavaScript truthiness of the criterion field (absent, `0` and `""` are
falsy, so those checks are skipped). -/
def signalMatchesCriteria (signal : AnalyzedSignal) (c : PatternCriteria) : Bool :=
  let raw := signal.rawData
  if !(signal.type == c.type) then false
  else if truthyStr c.action && !(raw.action == c.action) then false
  else if truthyStr c.pageIncl &&
      !(truthyStr raw.page && strIncludes (raw.page.getD "") (c.pageIncl.getD "")) then false
  else if truthyNum c.minScore && signal.quantitativeScore < c.minScore.getD 0 then false
  else if truthyNum c.durationMax && raw.duration.isSome &&
      c.durationMax.getD 0 < raw.duration.getD 0 then false
  else if truthyNum c.bounceRateMin &&
      (!raw.bounceRate.isSome || raw.bounceRate.getD 0 < c.bounceRateMin.getD 0) then false
  else if truthyNum c.daysInRoleMin &&
      (!raw.daysInRole.isSome || raw.daysInRole.getD 0 < c.daysInRoleMin.getD 0) then false
  else if truthyNum c.daysInRoleMax && raw.daysInRole.isSome &&
      c.daysInRoleMax.getD 0 < raw.daysInRole.getD 0 then false
  else if c.painPoint &&
      (match signal.qualitativeContext.painPoints with
       | none => true
       | some ps => ps.length = 0) then false
  else if truthyStr c.newsType && !(raw.newsType == c.newsType) then false
  else if truthyStr c.department && !(raw.metaDepartment == c.department) then false
  else if c.bofu &&
      !(let asset := (raw.asset.getD "").toLower
        strIncludes asset "implementation" || strIncludes asset "enterprise" ||
        strIncludes asset "security" || strIncludes asset "compliance") then false
  else if c.noComment && truthyStr raw.content then false
  else if c.clickedLink == some false && raw.clickedLink == some true then false
  else true

/-- `countMatchingSignals` (`patternMatcher.ts:262-264`). -/
def countMatchingSignals (signals : List AnalyzedSignal) (c : PatternCriteria) : ℕ :=
  (signals.filter (fun s => signalMatchesCriteria s c)).length

/-- One iteration of the required-criteria loop in
`calculatePatternMatch`: a criterion with a truthy `minVisits` needs at
least that many matching signals, any other needs at least one. -/
def requiredCriterionOK (signals : List AnalyzedSignal) (c : PatternCriteria) : Bool :=
  if truthyNat c.minVisits then c.minVisits.getD 0 ≤ countMatchingSignals signals c
  else 0 < countMatchingSignals signals c

/-- `calculatePatternMatch` (`patternMatcher.ts:269-331`).  The loop
counter `requiredMatched` is the number of required criteria passing
`requiredCriterionOK`; the pattern matches iff that count is not below
`requiredSignals.length`.  `matchScore = 50 + 10` per satisfied optional
criterion, unclamped.  `matchedSignals` accumulates, per satisfied
criterion, every signal matching it (with duplicates, as in the source). -/
def calculatePatternMatch (p : Pattern) (enrichedSignals : List AnalyzedSignal) :
    Option MatchedPattern :=
  let requiredSat := p.requiredSignals.filter (fun c => requiredCriterionOK enrichedSignals c)
  if requiredSat.length < p.requiredSignals.length then none
  else
    let optionalSat := p.optionalSignals.filter (fun c => 0 < countMatchingSignals enrichedSignals c)
    let matchScore : ℤ := 50 + 10 * optionalSat.length
    let matchedSignals := (requiredSat ++ optionalSat).flatMap
      (fun c => enrichedSignals.filter (fun s => signalMatchesCriteria s c))
    let reqReasons := requiredSat.map (fun c =>
      if truthyNat c.minVisits then
        "Found " ++ toString (countMatchingSignals enrichedSignals c) ++ " " ++ c.type ++
          " signals matching criteria"
      else "Found " ++ c.type ++ " signal matching criteria")
    let optReasons := optionalSat.map (fun c => "Bonus: " ++ c.type ++ " signal found")
    let signalStrength : ℚ := min 1 ((matchedSignals.length : ℚ) / 4)
    some
      { pattern := p.id
        name := p.name
        signals := matchedSignals.map (fun s => (s.type, s.quantitativeScore))
        historicalConversion := p.historicalConversion
        avgDaysToClose := p.avgDaysToClose
        reasoning := p.description ++ ". " ++
          String.intercalate ". " (reqReasons ++ optReasons) ++ "."
        confidence := jsRound2 (p.confidence * signalStrength)
        matchScore := matchScore
        weight := p.weight
        isFalsePositive := p.isFalsePositive }

/-! ## Qualitative enrichment (`src/analyzers/llmExtractor.ts`) -/

/-- `LLMExtractionResult` — the schema every enrichment strategy must
produce. -/
structure LLMExtractionResult where
  painPoints : List String
  urgency : Level
  urgencyReasoning : Option String := none
  specificity : Level
  specificityReasoning : Option String := none
  buyingStage : Stage
  sentiment : Sentiment
  falsePositiveRisk : Level
  falsePositiveReasons : Option (List String) := none
  confidence : ℚ
  keyInsights : Option (List String) := none
deriving DecidableEq, Repr

/-- The spread-merge `{...signal.qualitativeContext, ...result}`: every
schema field of the qualitative context is overwritten because the
extraction result carries all of them.  (The source also copies the
`…Reasoning` annotation fields into the object; no downstream code reads
them, and the embedded context keeps the schema fields only.) -/
def mergeContext (r : LLMExtractionResult) : QualCtx where
  painPoints := some r.painPoints
  urgency := some r.urgency
  specificity := some r.specificity
  buyingStage := some r.buyingStage
  sentiment := some r.sentiment
  falsePositiveRisk := some r.falsePositiveRisk
  confidence := some r.confidence

/-- `enrichSignalsWithContext` (`llmExtractor.ts:362-400`).  The
per-signal extraction (remote reasoning call or deterministic mock) is
the parameter `extract`; a thrown error is its `Except.error` case.  The
source loops over the signals in order, pushing the merged signal on
success and — in the `catch` — the signal unchanged on failure; it never
rethrows. -/
def enrichSignalsWithContext
    (extract : RawSignal → Prospect → Except String LLMExtractionResult)
    (analyzedSignals : List AnalyzedSignal) (prospect : Prospect) :
    List AnalyzedSignal :=
  analyzedSignals.map (fun signal =>
    match extract signal.rawData prospect with
    | .ok ctx => { signal with qualitativeContext := mergeContext ctx }
    | .error _ => signal)

/-! ## Action recommendation engine (`src/recommendations/actionEngine.ts`) -/

/-- One entry of `nextSteps`. -/
structure NextStep where
  action : String
  timing : String
  priority : ℕ
deriving DecidableEq, Repr

/-- `RecommendedAction` (`actionEngine.ts:49-68`); the nested
`reasoning` record is flattened into three optional fields. -/
structure RecommendedAction where
  type : String
  channel : Option String := none
  timing : Option String := none
  priority : Option Priority := none
  messagingAngle : Option String := none
  suggestedMessage : Option String := none
  whyThisChannel : Option String := none
  whyNow : Option String := none
  whyThisAngle : Option String := none
  doNotMention : Option (List String) := none
  nextSteps : Option (List NextStep) := none
  redFlags : Option (List String) := none
deriving DecidableEq, Repr

/-- One mock historical win. -/
structure HistoricalWin where
  company : String
  similarityScore : ℚ
  signalPattern : String
  outcome : String
  daysToClose : Option ℚ
  dealValue : String
deriving DecidableEq, Repr

/-- `estimatedOutcome`.  `estimatedDaysToClose` distinguishes an absent
field (`none`) from an explicit `null` (`some none`), as JSON does. -/
structure EstimatedOutcome where
  conversionProbability : ℚ
  estimatedDaysToClose : Option (Option ℚ) := none
  estimatedDealValue : Option String := none
  confidence : Level
  reasoning : String
deriving DecidableEq, Repr

/-- The result `metadata` block; `generatedAt` is
`new Date().toISOString()` — the wall-clock time observed by the run. -/
structure ResultMetadata where
  generatedAt : String
  analysisVersion : String
  llmModel : String
  signalSources : List String
deriving DecidableEq, Repr

/-- `ActionRecommendationResult` (`actionEngine.ts:70-97`) — the merged
record returned by the pipeline.  The optional `analysis` block is
flattened into two optional fields. -/
structure ActionRecommendationResult where
  qualityScore : ℤ
  confidence : Level
  priorityLevel : Priority
  analysisSummary : Option String := none
  analysisKeyInsights : Option (List String) := none
  signalBreakdown : List BreakdownEntry
  matchedPatterns : List MatchedPattern
  recommendedAction : RecommendedAction
  type : Option String := none
  reasoning : Option String := none
  similarHistoricalWins : Option (List HistoricalWin) := none
  estimatedOutcome : EstimatedOutcome
  metadata : ResultMetadata
deriving DecidableEq, Repr

/-- `determineChannel` (`actionEngine.ts:102-129`): channel and its
reasoning string. -/
def determineChannel (enrichedSignals : List AnalyzedSignal) : String × String :=
  if enrichedSignals.any (fun s => s.type == "linkedin_engagement") then
    ("linkedin_message", "Prospect has engaged on LinkedIn, natural continuation of conversation")
  else if enrichedSignals.any (fun s => s.type == "email_interaction") then
    ("email", "Prospect has shown email engagement")
  else ("linkedin_message", "Most effective channel for B2B decision makers")

/-- Pain-point keyword buckets of `determineMessagingAngle`. -/
def scalingKeywords : List String := ["scaling", "growth", "team expansion", "hiring"]

/-- Productivity keyword bucket. -/
def productivityKeywords : List String :=
  ["manual", "time", "efficiency", "productivity", "admin"]

/-- Integration keyword bucket. -/
def integrationKeywords : List String := ["integration", "salesforce", "crm", "tech stack"]

/-- `determineMessagingAngle` (`actionEngine.ts:134-182`): angle and
optional pain-point focus. -/
def determineMessagingAngle (enrichedSignals : List AnalyzedSignal)
    (patterns : List MatchedPattern) : String × Option String :=
  let allPainPoints := (enrichedSignals.flatMap
    (fun s => (s.qualitativeContext.painPoints).getD [])).filter (fun p => !(p == ""))
  let base : String × Option String :=
    if 0 < allPainPoints.length then
      let painPointText := (String.intercalate " " allPainPoints).toLower
      if scalingKeywords.any (fun kw => strIncludes painPointText kw) then
        ("scaling_productivity", some "team scaling challenges")
      else if productivityKeywords.any (fun kw => strIncludes painPointText kw) then
        ("time_savings", some "manual process automation")
      else if integrationKeywords.any (fun kw => strIncludes painPointText kw) then
        ("integration_solution", some "integration and tech stack optimization")
      else ("general_value_prop", none)
    else ("general_value_prop", none)
  match patterns with
  | primaryPattern :: _ =>
    if primaryPattern.pattern == "new_role_evaluator" then
      ("new_role_stack_evaluation", base.2)
    else if primaryPattern.pattern == "active_evaluator_with_budget" then
      ("quick_roi", base.2)
    else base
  | [] => base

/-- `determineTiming` (`actionEngine.ts:187-218`): timing and its
reasoning string. -/
def determineTiming (qualityScore : ℤ) (enrichedSignals : List AnalyzedSignal) :
    String × String :=
  let hasVeryRecentSignal :=
    enrichedSignals.any (fun s => (9 : ℚ) / 10 < s.temporalFactors.recency)
  let hasHighUrgency :=
    enrichedSignals.any (fun s => s.qualitativeContext.urgency == some .high)
  if 85 ≤ qualityScore ∨ (hasVeryRecentSignal ∧ hasHighUrgency) then
    ("within_24h", "High quality and/or urgent signals require immediate action")
  else if 70 ≤ qualityScore then
    ("within_48h", "Strong signals indicate active evaluation")
  else if 50 ≤ qualityScore then
    ("within_week", "Moderate signals, timely but not urgent")
  else ("no_rush", "Low priority, can wait for additional signals")

/-- `generateDoNotMention` (`actionEngine.ts:223-246`). -/
def generateDoNotMention (enrichedSignals : List AnalyzedSignal) : List String :=
  (if enrichedSignals.any (fun s => s.type == "website_visit") then
    ["Specific number of website visits or pages viewed (too creepy)"] else []) ++
  (if enrichedSignals.any (fun s => s.type == "job_change") then
    ["Their recent job change directly (acknowledge expertise instead)"] else []) ++
  (if enrichedSignals.any (fun s => s.type == "email_interaction") then
    ["That you tracked their email opens or clicks"] else []) ++
  ["Generic pitch or feature dump", "Your quota or sales targets"]

/-- `findSimilarHistoricalWins` (`actionEngine.ts:251-273`). -/
def findSimilarHistoricalWins (patterns : List MatchedPattern) (prospect : Prospect) :
    List HistoricalWin :=
  match patterns with
  | [] => []
  | primaryPattern :: _ =>
    [{ company := "[Similar Company]"
       similarityScore := 87 / 100
       signalPattern := primaryPattern.name
       outcome :=
         match primaryPattern.avgDaysToClose with
         | some d => if d = 0 then "Won" else "Won in " ++ jsNumStr d ++ " days"
         | none => "Won"
       daysToClose := primaryPattern.avgDaysToClose
       dealValue :=
         if (match prospect.companySize with
             | some s => strIncludes s "50-200"
             | none => false) then "$150k ACV"
         else "$200k ACV" }]

/-- `estimateConversion` (`actionEngine.ts:278-302`). -/
def estimateConversion (qualityScore : ℤ) (patterns : List MatchedPattern)
    (confidence : Level) : ℚ :=
  let baseConversion : ℚ := (qualityScore : ℚ) / 100
  let baseConversion :=
    match patterns with
    | primaryPattern :: _ =>
      baseConversion * (4 / 10) + (primaryPattern.historicalConversion / 100) * (6 / 10)
    | [] => baseConversion
  let confidenceMultiplier : ℚ :=
    match confidence with
    | .high => 1
    | .medium => 17 / 20
    | .low => 7 / 10
  jsRound2 (baseConversion * confidenceMultiplier)

/-- `generateNextSteps` (`actionEngine.ts:528-574`). -/
def generateNextSteps (qualityScore : ℤ) (timing channel : String) : List NextStep :=
  if 70 ≤ qualityScore then
    [{ action := "Send personalized " ++ jsReplaceOnce channel "_" " "
       timing := jsReplaceOnce timing "_" " "
       priority := 1 },
     { action := "If no response in 48h, send follow-up with case study"
       timing := "48h after first touchpoint"
       priority := 2 },
     { action := "If response positive, book discovery call"
       timing := "immediate upon response"
       priority := 3 }]
  else
    [{ action := "Monitor for additional signals", timing := "continuous", priority := 1 },
     { action := "Add to nurture campaign", timing := "immediate", priority := 2 },
     { action := "Re-evaluate when 2+ new signals appear"
       timing := "as signals arrive"
       priority := 3 }]

/-- `identifyRedFlags` (`actionEngine.ts:579-615`).  The majority test
`highRisk.length > length / 2` is exact JavaScript division, embedded as
`length < 2 * highRisk`. -/
def identifyRedFlags (enrichedSignals : List AnalyzedSignal)
    (patterns : List MatchedPattern) : List String :=
  (match patterns.find? (·.isFalsePositive) with
   | some p => ["Matches false positive pattern: " ++ p.name]
   | none => []) ++
  (if enrichedSignals.length <
      2 * (enrichedSignals.filter
        (fun s => s.qualitativeContext.falsePositiveRisk == some .high)).length then
    ["Majority of signals have high false positive risk"] else []) ++
  (if (enrichedSignals.filter (fun s => s.quantitativeScore < 40)).length =
      enrichedSignals.length then
    ["All signals show shallow engagement"] else []) ++
  (if enrichedSignals.any (fun s =>
      s.rawData.metaIsCompetitor ||
      strIncludes ((s.rawData.company.getD "").toLower) "competitor") then
    ["Prospect may be competitor conducting research"] else [])

/-- Company-size multiplier map of `estimateDealValue`. -/
def dealSizeMap : List (String × ℚ) :=
  [("1-10", 3 / 10), ("11-50", 1 / 2), ("51-200", 1), ("50-200", 1),
   ("100-250", 6 / 5), ("201-1000", 3 / 2), ("1000+", 2)]

/-- `estimateDealValue` (`actionEngine.ts:620-654`).  The source rounds
`baseValue*0.8` to the nearest 1000 and prints it divided by 1000; the
embedded `lowK`/`highK` are exactly those printed integers. -/
def estimateDealValue (prospect : Prospect) : String :=
  let baseValue : ℚ := 100000
  let baseValue :=
    if truthyStr prospect.companySize then
      let multiplier :=
        match lookupStr dealSizeMap (prospect.companySize.getD "") with
        | some v => if v = 0 then 1 else v
        | none => 1
      baseValue * multiplier
    else baseValue
  let baseValue :=
    if truthyStr prospect.role then
      let roleLower := (prospect.role.getD "").toLower
      if strIncludes roleLower "vp" || strIncludes roleLower "chief" then
        baseValue * (13 / 10)
      else if strIncludes roleLower "director" then baseValue * (23 / 20)
      else baseValue
    else baseValue
  let lowK := jsRound (baseValue * (8 / 10) / 1000)
  let highK := jsRound (baseValue * (12 / 10) / 1000)
  "$" ++ toString lowK ++ "k-" ++ toString highK ++ "k ACV"

/-- `generateAnalysisSummary` (`actionEngine.ts:468-523`). -/
def generateAnalysisSummary (scoringResult : QualityScoreResult)
    (enrichedSignals : List AnalyzedSignal) (patterns : List MatchedPattern) :
    String × List String :=
  let qualityScore := scoringResult.qualityScore
  let summary :=
    if 85 ≤ qualityScore then
      "Exceptionally high-quality signal cluster. Prospect is actively evaluating solutions with clear pain point, budget, and authority."
    else if 70 ≤ qualityScore then
      "Strong signal cluster indicating serious buyer interest and active evaluation phase."
    else if 50 ≤ qualityScore then
      "Moderate signal quality. Prospect shows some interest but needs additional qualifying signals."
    else
      "Low-quality signal cluster with high false positive indicators or insufficient context."
  let painPoints := (enrichedSignals.flatMap
    (fun s => (s.qualitativeContext.painPoints).getD [])).filter (fun p => !(p == ""))
  let urgentCount := (enrichedSignals.filter
    (fun s => s.qualitativeContext.urgency == some .high)).length
  let keyInsights : List String :=
    (if 0 < painPoints.length then
      ["Pain points identified: " ++ String.intercalate ", " (painPoints.take 3)] else []) ++
    (if 0 < urgentCount then
      [toString urgentCount ++ " high-urgency signals detected"] else []) ++
    (if enrichedSignals.any (fun s =>
        s.qualitativeContext.buyingStage == some .decision ∨
        s.qualitativeContext.buyingStage == some .consideration) then
      ["Prospect in active evaluation stage"] else []) ++
    (match patterns with
     | [] => []
     | primaryPattern :: _ =>
       ["Pattern match: \"" ++ primaryPattern.name ++ "\" (" ++
        jsNumStr primaryPattern.historicalConversion ++ "% conversion rate)"])
  (summary, keyInsights)

/-- `generateActionRecommendation` (`actionEngine.ts:307-463`).

The message generator lives in the excluded `messageGenerator.ts`
component and is passed as the parameter `genMsg`; `genMessageOpt`
embeds `options.generateMessage` (`undefined` behaves as `true`:
the source tests `options.generateMessage !== false`).

`now` is the wall-clock value observed by the run: the source stamps the
result with `metadata.generatedAt = new Date().toISOString()`. -/
def generateActionRecommendation (scoringResult : QualityScoreResult)
    (enrichedSignals : List AnalyzedSignal) (prospect : Prospect)
    (genMessageOpt : Option Bool)
    (genMsg : Prospect → List AnalyzedSignal → String → Option String →
      List MatchedPattern → String)
    (now : String) : ActionRecommendationResult :=
  let qualityScore := scoringResult.qualityScore
  let confidence := scoringResult.confidence
  let priorityLevel := scoringResult.priorityLevel
  let typedPatterns := scoringResult.patterns
  let breakdown := scoringResult.breakdown
  if priorityLevel = .ignore ∨ priorityLevel = .low then
    { qualityScore := qualityScore
      confidence := confidence
      priorityLevel := priorityLevel
      signalBreakdown := breakdown
      matchedPatterns := typedPatterns
      type := some (if priorityLevel = .ignore then "no_action" else "monitor_only")
      reasoning := some "Quality score too low for active outreach"
      recommendedAction :=
        { type := "monitor_and_enrich"
          nextSteps := some
            [{ action := "Add to passive nurture campaign"
               timing := "immediate", priority := 1 },
             { action := "Monitor for additional signals"
               timing := "continuous", priority := 2 },
             { action := "Wait for 3+ more qualifying signals before outreach"
               timing := "as signals arrive", priority := 3 }] }
      estimatedOutcome :=
        { conversionProbability := estimateConversion qualityScore typedPatterns confidence
          confidence := .low
          reasoning := "Insufficient signal quality for accurate prediction" }
      metadata :=
        { generatedAt := now
          analysisVersion := "1.0.0"
          llmModel := "claude-sonnet-4"
          signalSources := jsSetDedup (enrichedSignals.map (·.type)) } }
  else
    let (channel, channelReasoning) := determineChannel enrichedSignals
    let (timing, timingReasoning) := determineTiming qualityScore enrichedSignals
    let (angle, painPointFocus) := determineMessagingAngle enrichedSignals typedPatterns
    let doNotMention := generateDoNotMention enrichedSignals
    let similarWins := findSimilarHistoricalWins typedPatterns prospect
    let conversionProbability := estimateConversion qualityScore typedPatterns confidence
    let estimatedDaysToClose : Option ℚ :=
      match typedPatterns with
      | primaryPattern :: _ => primaryPattern.avgDaysToClose
      | [] => some (jsRound ((30 : ℚ) + ((100 : ℚ) - (qualityScore : ℚ)) * (1 / 2)) : ℤ)
    let (summary, keyInsights) :=
      generateAnalysisSummary scoringResult enrichedSignals typedPatterns
    { qualityScore := qualityScore
      confidence := confidence
      priorityLevel := priorityLevel
      analysisSummary := some summary
      analysisKeyInsights := some keyInsights
      signalBreakdown := breakdown
      matchedPatterns := typedPatterns
      recommendedAction :=
        { type := "personalized_outreach"
          channel := some channel
          timing := some timing
          priority := some priorityLevel
          messagingAngle := some angle
          suggestedMessage :=
            if !(genMessageOpt == some false) then
              some (genMsg prospect enrichedSignals angle painPointFocus typedPatterns)
            else none
          whyThisChannel := some channelReasoning
          whyNow := some timingReasoning
          whyThisAngle := some
            (match painPointFocus with
             | some focus => "Lead with their specific pain point: " ++ focus
             | none => "General value proposition with industry relevance")
          doNotMention := some doNotMention
          nextSteps := some (generateNextSteps qualityScore timing channel)
          redFlags := some (identifyRedFlags enrichedSignals typedPatterns) }
      similarHistoricalWins := some similarWins
      estimatedOutcome :=
        { conversionProbability := conversionProbability
          estimatedDaysToClose := some estimatedDaysToClose
          estimatedDealValue := some (estimateDealValue prospect)
          confidence := confidence
          reasoning := "Based on " ++ toString typedPatterns.length ++
            " pattern matches and " ++ toString enrichedSignals.length ++ " signals" }
      metadata :=
        { generatedAt := now
          analysisVersion := "1.0.0"
          llmModel := "claude-sonnet-4"
          signalSources := jsSetDedup (enrichedSignals.map (·.type)) } }

/-! ## Shared lemmas -/

/-- `find?` is some exactly when the boolean search succeeds on some element. -/
theorem find_isSome_eq_any {α : Type} (l : List α) (p : α → Bool) :
    (l.find? p).isSome = l.any p := by
  induction l with
  | nil => rfl
  | cons a l ih =>
    by_cases h : p a <;> simp [List.find?, List.any, h, ih]

/-- With the pipeline's `dataCompleteness = min(1, signalCount/5)`, the
`≥ 0.8` test is equivalent to `signalCount ≥ 4`. -/
theorem dataCompleteness_ge_iff (sc : ℕ) :
    ((4 : ℚ) / 5 ≤ min 1 ((sc : ℚ) / 5)) ↔ 4 ≤ sc := by
  rw [le_min_iff]
  constructor
  · rintro ⟨-, h⟩
    by_contra hlt
    push_neg at hlt
    interval_cases sc <;> norm_num at h
  · intro h
    refine ⟨by norm_num, ?_⟩
    have h4 : (4 : ℚ) ≤ (sc : ℚ) := by exact_mod_cast h
    linarith

/-! ## C1 — false-positive override and score bands of the priority level -/

/-- C1 (confirmed).  For every quality score and every matched-pattern
list, the priority computed by the quality scorer
(`determinePriority(qualityScore, patterns.find(p => p.isFalsePositive) !== undefined)`,
`qualityScorer.ts:331-347` and `423-428`) is `ignore` whenever some
matched pattern has `isFalsePositive = true`, regardless of the numeric
score; otherwise it is `urgent` for score ≥ 85, `high` for ≥ 70,
`medium` for ≥ 50, `low` for ≥ 30 and `ignore` below 30. -/
theorem priority_false_positive_override_and_bands
    (qualityScore : ℤ) (patterns : List MatchedPattern) :
    determinePriority qualityScore ((patterns.find? (·.isFalsePositive)).isSome) =
      if ∃ p ∈ patterns, p.isFalsePositive = true then .ignore
      else if 85 ≤ qualityScore then .urgent
      else if 70 ≤ qualityScore then .high
      else if 50 ≤ qualityScore then .medium
      else if 30 ≤ qualityScore then .low
      else .ignore := by
  rw [find_isSome_eq_any]
  by_cases h : ∃ p ∈ patterns, p.isFalsePositive = true
  · have hany : patterns.any (·.isFalsePositive) = true := by
      simpa [List.any_eq_true] using h
    simp [determinePriority, hany, h]
  · have hany : patterns.any (·.isFalsePositive) = false := by
      simpa [List.any_eq_true] using h
    simp [determinePriority, hany, h]

/-! ## C2 — velocity computation of the analysis pipeline -/

/-- C2 counterexample.  On the same four same-type timestamps (hours
0, 10, 11 and 21, as milliseconds), the analysis pipeline's inline
computation (`signalAnalyzer.ts`, `analyzeSignal`) yields `stable` —
it compares only the first gap (10h) with the last gap (10h) — while
the half-means algorithm the claim describes (implemented in
`temporal.ts`, `calculateVelocity`, but not called by the pipeline)
yields `increasing` (first-half mean 10 vs second-half mean 5.5 < 7).
So the pipeline's velocity is not computed by comparing half-means. -/
theorem velocity_pipeline_counterexample :
    analyzeVelocity [0, 36000000, 39600000, 75600000] = .stable ∧
    calculateVelocity [0, 36000000, 39600000, 75600000] = .increasing := by
  constructor <;> decide

/-- Length of `hourGaps`. -/
theorem hourGaps_length (l : List ℚ) : (hourGaps l).length = l.length - 1 := by
  induction l with
  | nil => rfl
  | cons a l ih =>
    cases l with
    | nil => rfl
    | cons b r => simpa [hourGaps] using ih

/-- Inserting preserves length. -/
theorem insertAsc_length (x : ℚ) (l : List ℚ) :
    (insertAsc x l).length = l.length + 1 := by
  induction l with
  | nil => rfl
  | cons y ys ih =>
    by_cases h : x ≤ y <;> simp [insertAsc, h, ih]

/-- Sorting preserves length. -/
theorem sortAsc_length (l : List ℚ) : (sortAsc l).length = l.length := by
  induction l with
  | nil => rfl
  | cons x xs ih =>
    show (insertAsc x (sortAsc xs)).length = xs.length + 1
    rw [insertAsc_length, ih]

/-- C2 amended (theorem).  The velocity the analysis pipeline computes
for a same-type timestamp list is `stable` for fewer than 3 timestamps,
and otherwise compares only the FIRST inter-arrival gap of the
ascending-sorted list with the LAST one: `increasing` when
`lastGap < 0.7 · firstGap`, `decreasing` when `lastGap > 1.3 · firstGap`,
else `stable`.  The half-means algorithm of `calculateVelocity` also
returns `stable` below 3 timestamps (for exactly 2, via the `NaN`
comparisons), but is not what the pipeline runs. -/
theorem velocity_pipeline_first_last_gap (timestamps : List ℚ) :
    (timestamps.length < 3 → analyzeVelocity timestamps = .stable) ∧
    (3 ≤ timestamps.length →
      analyzeVelocity timestamps =
        (let s := sortAsc timestamps
         let firstGap := s.getD 1 0 - s.getD 0 0
         let lastGap := s.getD (s.length - 1) 0 - s.getD (s.length - 2) 0
         if lastGap < firstGap * (7 / 10) then .increasing
         else if lastGap > firstGap * (13 / 10) then .decreasing
         else .stable)) ∧
    (timestamps.length < 3 → calculateVelocity timestamps = .stable) := by
  refine ⟨?_, ?_, ?_⟩
  · intro h
    have hs : ¬ 3 ≤ (sortAsc timestamps).length := by
      rw [sortAsc_length]; omega
    simp [analyzeVelocity, hs]
  · intro h
    have hs : 3 ≤ (sortAsc timestamps).length := by
      rw [sortAsc_length]; omega
    simp [analyzeVelocity, hs]
  · intro h
    by_cases h2 : timestamps.length < 2
    · simp [calculateVelocity, h2]
    · have hlen : timestamps.length = 2 := by omega
      have hmid : (hourGaps (sortAsc timestamps)).length / 2 = 0 := by
        rw [hourGaps_length, sortAsc_length, hlen]
      simp [calculateVelocity, hlen, hmid]

/-! ## C3 — confidence bands -/

/-- C3 counterexample.  With 1 signal and 1 matched pattern (and the
pipeline's `dataCompleteness = min(1, 1/5)`), `calculateConfidence`
returns `low` although a pattern matched — the claim states `low`
happens exactly when `signalCount < 3` AND no pattern matched, which
would put this case at `medium`.  (With one pattern and fewer than two
signals the source falls through its medium branch, which requires
`signalCount >= 2`, into the final `signalCount < 3` low branch.) -/
theorem confidence_low_band_counterexample :
    ¬(calculateConfidence 1 1 (min 1 ((1 : ℚ) / 5)) = .low ↔ ((1 : ℕ) < 3 ∧ (1 : ℕ) = 0)) := by
  intro hiff
  have : ((1 : ℕ) < 3 ∧ (1 : ℕ) = 0) := hiff.mp (by decide)
  omega

/-- C3 amended (theorem).  With the pipeline's
`dataCompleteness = min(1, signalCount/5)`, the confidence band is
`high` exactly when `signalCount ≥ 6`, or `signalCount ≥ 5` with at
least one pattern, or `signalCount ≥ 3` with at least one pattern and
`dataCompleteness ≥ 0.8`; it is `low` exactly when `signalCount < 3`
and additionally no pattern matched OR `signalCount < 2`; it is
`medium` in every other case. -/
theorem confidence_bands (signalCount patternCount : ℕ) :
    calculateConfidence signalCount patternCount (min 1 ((signalCount : ℚ) / 5)) =
      if 6 ≤ signalCount ∨ (5 ≤ signalCount ∧ 1 ≤ patternCount) ∨
          (3 ≤ signalCount ∧ 1 ≤ patternCount ∧
            (4 : ℚ) / 5 ≤ min 1 ((signalCount : ℚ) / 5)) then .high
      else if signalCount < 3 ∧ (patternCount = 0 ∨ signalCount < 2) then .low
      else .medium := by
  rw [calculateConfidence]
  by_cases hh : 6 ≤ signalCount ∨ (5 ≤ signalCount ∧ 1 ≤ patternCount) ∨
      (3 ≤ signalCount ∧ 1 ≤ patternCount ∧
        (4 : ℚ) / 5 ≤ min 1 ((signalCount : ℚ) / 5))
  · rw [if_pos hh, if_pos hh]
  · rw [if_neg hh, if_neg hh]
    split_ifs <;> first | rfl | omega

/-- C2 witness: the claim-relevant branches of
`velocity_pipeline_first_last_gap` at concrete inputs. -/
theorem velocity_pipeline_witness :
    analyzeVelocity [0, 1] = .stable
  ∧ calculateVelocity [0, 1] = .stable
  ∧ analyzeVelocity [0, 36000000, 39600000, 75600000] =
      (let s := sortAsc [0, 36000000, 39600000, 75600000]
       let firstGap := s.getD 1 0 - s.getD 0 0
       let lastGap := s.getD (s.length - 1) 0 - s.getD (s.length - 2) 0
       if lastGap < firstGap * (7 / 10) then .increasing
       else if lastGap > firstGap * (13 / 10) then .decreasing
       else .stable) :=
  ⟨(velocity_pipeline_first_last_gap [0, 1]).1 (by decide),
   (velocity_pipeline_first_last_gap [0, 1]).2.2 (by decide),
   (velocity_pipeline_first_last_gap [0, 36000000, 39600000, 75600000]).2.1 (by decide)⟩

/-! ## C4 / C6 — pattern matching -/

/-- A filter over a pointwise-weaker predicate is no longer. -/
theorem filter_length_mono {α : Type} (l : List α) (p q : α → Bool)
    (h : ∀ x ∈ l, p x = true → q x = true) :
    (l.filter p).length ≤ (l.filter q).length := by
  induction l with
  | nil => simp
  | cons a l ih =>
    have ht := h a (by simp)
    have ih' := ih (fun x hx => h x (by simp [hx]))
    by_cases hp : p a
    · rw [List.filter_cons_of_pos hp, List.filter_cons_of_pos (ht hp)]
      simpa using ih'
    · rw [List.filter_cons_of_neg (by simpa using hp)]
      cases hq : q a
      · rw [List.filter_cons_of_neg (by simp [hq])]; exact ih'
      · rw [List.filter_cons_of_pos hq]; simp; omega

/-- Strict version of `filter_length_mono` when some element flips. -/
theorem filter_length_strict_mono {α : Type} (l : List α) (p q : α → Bool)
    (h : ∀ x ∈ l, p x = true → q x = true)
    (x : α) (hx : x ∈ l) (hpx : p x = false) (hqx : q x = true) :
    (l.filter p).length < (l.filter q).length := by
  induction l with
  | nil => cases hx
  | cons a l ih =>
    have hmono := filter_length_mono l p q (fun y hy => h y (by simp [hy]))
    rcases List.mem_cons.mp hx with rfl | hx'
    · rw [List.filter_cons_of_neg (by simp [hpx]), List.filter_cons_of_pos hqx]
      simp; omega
    · have ih' := ih (fun y hy => h y (by simp [hy])) hx'
      by_cases hp : p a
      · rw [List.filter_cons_of_pos hp, List.filter_cons_of_pos (h a (by simp) hp)]
        simpa using ih'
      · rw [List.filter_cons_of_neg (by simpa using hp)]
        cases hq : q a
        · rw [List.filter_cons_of_neg (by simp [hq])]; exact ih'
        · rw [List.filter_cons_of_pos hq]; simp; omega

/-- A filter of the whole list has full length iff the predicate holds
everywhere. -/
theorem filter_length_eq_iff_all {α : Type} (l : List α) (p : α → Bool) :
    (l.filter p).length = l.length ↔ ∀ x ∈ l, p x = true := by
  constructor
  · intro h
    have hsub : (l.filter p).Sublist l := List.filter_sublist l
    have := hsub.eq_of_length h
    intro x hx
    exact List.of_mem_filter (this ▸ hx)
  · intro h
    rw [List.filter_eq_self.mpr h]

/-- Adding one signal to the set adds its own match (if any) to each
criterion's match count. -/
theorem countMatchingSignals_append (signals : List AnalyzedSignal)
    (s : AnalyzedSignal) (c : PatternCriteria) :
    countMatchingSignals (signals ++ [s]) c =
      countMatchingSignals signals c + (if signalMatchesCriteria s c then 1 else 0) := by
  rw [countMatchingSignals, countMatchingSignals, List.filter_append]
  by_cases h : signalMatchesCriteria s c <;> simp [h]

/-- A criterion satisfied by a signal set is satisfied after adding a
signal. -/
theorem requiredCriterionOK_mono (signals : List AnalyzedSignal)
    (s : AnalyzedSignal) (c : PatternCriteria)
    (h : requiredCriterionOK signals c = true) :
    requiredCriterionOK (signals ++ [s]) c = true := by
  rw [requiredCriterionOK] at h ⊢
  rw [countMatchingSignals_append]
  cases hm : signalMatchesCriteria s c <;>
    by_cases ht : truthyNat c.minVisits <;>
    simp only [hm, ht, if_true, if_false, Bool.false_eq_true, if_neg,
      decide_eq_true_eq] at h ⊢ <;>
    omega

/-- `calculatePatternMatch` succeeds iff every required criterion passes
`requiredCriterionOK`. -/
theorem calculatePatternMatch_isSome_iff (p : Pattern)
    (signals : List AnalyzedSignal) :
    (calculatePatternMatch p signals).isSome = true ↔
      ∀ c ∈ p.requiredSignals, requiredCriterionOK signals c = true := by
  rw [calculatePatternMatch]
  by_cases h : (p.requiredSignals.filter
      (fun c => requiredCriterionOK signals c)).length < p.requiredSignals.length
  · rw [if_pos h]
    simp only [Option.isSome_none, Bool.false_eq_true, false_iff]
    intro hall
    have := (filter_length_eq_iff_all p.requiredSignals
      (fun c => requiredCriterionOK signals c)).mpr hall
    omega
  · rw [if_neg h]
    simp only [Option.isSome_some, true_iff]
    have hle := List.length_filter_le
      (fun c => requiredCriterionOK signals c) p.requiredSignals
    exact (filter_length_eq_iff_all p.requiredSignals
      (fun c => requiredCriterionOK signals c)).mp (by omega)

/-- The matchScore of a successful pattern match. -/
theorem calculatePatternMatch_matchScore (p : Pattern)
    (signals : List AnalyzedSignal) (m : MatchedPattern)
    (h : calculatePatternMatch p signals = some m) :
    m.matchScore = 50 + 10 * ((p.optionalSignals.filter
      (fun c => 0 < countMatchingSignals signals c)).length : ℤ) := by
  rw [calculatePatternMatch] at h
  split at h
  · cases h
  · cases h
    rfl

/-- C4 (confirmed).  A pattern matches a signal set iff every required
criterion is satisfied: by at least `minVisits` matching signals for
criteria carrying a (truthy, i.e. nonzero) `minVisits` count, and by at
least one matching signal otherwise (`requiredCriterionOK`); and the
matchScore of a matched pattern is exactly `50 + 10` per optional
criterion satisfied by at least one signal, with no upper clamp. -/
theorem pattern_match_iff_required_and_bonus (p : Pattern)
    (signals : List AnalyzedSignal) :
    ((calculatePatternMatch p signals).isSome = true ↔
      ∀ c ∈ p.requiredSignals, requiredCriterionOK signals c = true)
  ∧ (∀ m, calculatePatternMatch p signals = some m →
      m.matchScore = 50 + 10 * ((p.optionalSignals.filter
        (fun c => signals.any (fun s => signalMatchesCriteria s c))).length : ℤ)) := by
  refine ⟨calculatePatternMatch_isSome_iff p signals, fun m hm => ?_⟩
  rw [calculatePatternMatch_matchScore p signals m hm]
  have : (p.optionalSignals.filter
        (fun c => 0 < countMatchingSignals signals c)) =
      (p.optionalSignals.filter
        (fun c => signals.any (fun s => signalMatchesCriteria s c))) := by
    apply List.filter_congr
    intro c _
    rw [countMatchingSignals]
    rcases hany : signals.any (fun s => signalMatchesCriteria s c) with _ | _
    · simp only [List.any_eq_false] at hany
      rw [List.filter_eq_nil_iff.mpr (by simpa using hany)]
      simp
    · simp only [List.any_eq_true] at hany
      obtain ⟨s, hs, hmatch⟩ := hany
      have : s ∈ signals.filter (fun s => signalMatchesCriteria s c) :=
        List.mem_filter.mpr ⟨hs, hmatch⟩
      simp [List.length_pos.mpr (List.ne_nil_of_mem this)]
  rw [this]

/-- C6 amended (theorem).  Adding a signal to a matched pattern's signal
set never unmatches it and never decreases its matchScore; the
matchScore strictly increases exactly in the situation where the added
signal satisfies some optional criterion that no existing signal
satisfied (if every optional criterion the new signal satisfies was
already satisfied, the score is unchanged). -/
theorem pattern_match_add_signal_monotone (p : Pattern)
    (signals : List AnalyzedSignal) (s : AnalyzedSignal)
    (h : (calculatePatternMatch p signals).isSome = true) :
    (calculatePatternMatch p (signals ++ [s])).isSome = true
  ∧ (∀ m m', calculatePatternMatch p signals = some m →
      calculatePatternMatch p (signals ++ [s]) = some m' →
      m.matchScore ≤ m'.matchScore
      ∧ ((∃ c ∈ p.optionalSignals, signalMatchesCriteria s c = true ∧
            ∀ s' ∈ signals, signalMatchesCriteria s' c = false) →
          m.matchScore < m'.matchScore)) := by
  constructor
  · rw [calculatePatternMatch_isSome_iff] at h ⊢
    exact fun c hc => requiredCriterionOK_mono signals s c (h c hc)
  · intro m m' hm hm'
    rw [calculatePatternMatch_matchScore p signals m hm,
        calculatePatternMatch_matchScore p (signals ++ [s]) m' hm']
    have hmono : ∀ c ∈ p.optionalSignals,
        decide (0 < countMatchingSignals signals c) = true →
        decide (0 < countMatchingSignals (signals ++ [s]) c) = true := by
      intro c _ hc
      rw [decide_eq_true_eq] at hc ⊢
      rw [countMatchingSignals_append]
      omega
    constructor
    · have := filter_length_mono p.optionalSignals _ _ hmono
      omega
    · rintro ⟨c, hc, hmatch, hnone⟩
      have hbefore : decide (0 < countMatchingSignals signals c) = false := by
        rw [decide_eq_false_iff_not]
        rw [countMatchingSignals]
        rw [List.filter_eq_nil_iff.mpr (by simpa using hnone)]
        simp
      have hafter : decide (0 < countMatchingSignals (signals ++ [s]) c) = true := by
        rw [decide_eq_true_eq, countMatchingSignals_append, if_pos hmatch]
        omega
      have := filter_length_strict_mono p.optionalSignals _ _ hmono c hc hbefore hafter
      omega

/-! ### Concrete sample data -/

/-- A criterion requiring a signal of type `a`. -/
def critTypeA : PatternCriteria := { type := "a" }

/-- A criterion requiring a signal of type `b`. -/
def critTypeB : PatternCriteria := { type := "b" }

/-- A sample pattern: one required criterion (type `a`), one optional
criterion (type `b`). -/
def samplePattern : Pattern where
  id := "p1"
  name := "P1"
  description := "sample"
  requiredSignals := [critTypeA]
  optionalSignals := [critTypeB]
  historicalConversion := 50
  confidence := 4 / 5
  weight := 100

/-- A bare analyzed signal of the given type and quantitative score. -/
def sampleSignal (t : String) (q : ℚ) : AnalyzedSignal where
  type := t
  rawData := { type := t }
  quantitativeScore := q
  qualitativeContext := {}
  temporalFactors := { recency := 1 / 2, frequency := 1 }

/-- A bare prospect. -/
def sampleProspect : Prospect := { company := "Acme" }

/-- C6 counterexample.  `samplePattern` matches
`[a-signal, b-signal]` with matchScore 60 (base 50 + one satisfied
optional criterion); adding ANOTHER signal satisfying the same optional
criterion leaves the matchScore at 60 — it does not strictly increase,
because the per-criterion bonus is granted once, not per signal. -/
theorem pattern_match_optional_bonus_counterexample :
    (calculatePatternMatch samplePattern
      [sampleSignal "a" 50, sampleSignal "b" 50]).isSome = true
  ∧ signalMatchesCriteria (sampleSignal "b" 60) critTypeB = true
  ∧ (calculatePatternMatch samplePattern
      [sampleSignal "a" 50, sampleSignal "b" 50]).map (·.matchScore) = some 60
  ∧ (calculatePatternMatch samplePattern
      [sampleSignal "a" 50, sampleSignal "b" 50, sampleSignal "b" 60]).map
        (·.matchScore) = some 60 := by
  refine ⟨by decide, by decide, by decide, by decide⟩

/-- The matched result of `samplePattern` against the two-signal sample set. -/
def sampleMatch : MatchedPattern :=
  (calculatePatternMatch samplePattern
    [sampleSignal "a" 50, sampleSignal "b" 50]).get (by decide)

/-- C4 witness: `pattern_match_iff_required_and_bonus` applied at the
sample pattern and signal set. -/
theorem pattern_match_iff_required_and_bonus_witness :
    sampleMatch.matchScore = 50 + 10 * ((samplePattern.optionalSignals.filter
      (fun c => [sampleSignal "a" 50, sampleSignal "b" 50].any
        (fun s => signalMatchesCriteria s c))).length : ℤ) :=
  (pattern_match_iff_required_and_bonus samplePattern
    [sampleSignal "a" 50, sampleSignal "b" 50]).2 sampleMatch
    (Option.some_get _).symm

/-- The matched result of `samplePattern` against the lone `a` signal. -/
def sampleMatchBefore : MatchedPattern :=
  (calculatePatternMatch samplePattern [sampleSignal "a" 50]).get (by decide)

/-- The matched result after adding a `b` signal. -/
def sampleMatchAfter : MatchedPattern :=
  (calculatePatternMatch samplePattern
    ([sampleSignal "a" 50] ++ [sampleSignal "b" 50])).get (by decide)

/-- C6 witness: `pattern_match_add_signal_monotone` applied at the
sample pattern, a matched one-signal set, and a new signal satisfying
the previously unsatisfied optional criterion. -/
theorem pattern_match_add_signal_monotone_witness :
    sampleMatchBefore.matchScore ≤ sampleMatchAfter.matchScore ∧
    sampleMatchBefore.matchScore < sampleMatchAfter.matchScore := by
  have h := pattern_match_add_signal_monotone samplePattern
    [sampleSignal "a" 50] (sampleSignal "b" 50) (by decide)
  have h2 := h.2 sampleMatchBefore sampleMatchAfter
    (Option.some_get _).symm (Option.some_get _).symm
  exact ⟨h2.1, h2.2 ⟨critTypeB, by decide, by decide, by decide⟩⟩

/-! ## C5 — score clamping -/

/-- The signal used in the C5 counterexample: quantitative score 100
with every multiplier at its maximum under the default weights
(urgency high ×1.3, specificity high ×1.25, stage decision ×1.4,
false-positive risk low ×1.2, recency 1 ×1.2, velocity increasing
×1.2 — product 3.9312). -/
def maxBoostSignal : AnalyzedSignal where
  type := "linkedin_engagement"
  rawData := { type := "linkedin_engagement" }
  quantitativeScore := 100
  qualitativeContext :=
    { urgency := some .high
      specificity := some .high
      buyingStage := some .decision
      falsePositiveRisk := some .low }
  temporalFactors := { recency := 1, frequency := 1, velocity := some .increasing }

/-- C5 counterexample.  On `maxBoostSignal` (no patterns, bare
prospect, default weights) the per-signal `finalScore` reported in the
breakdown is `round(100 · 3.9312) = 393` and the `signalScore`
component is also 393 — neither is clamped to [0, 100]; only the final
`qualityScore` is (here to 100). -/
theorem breakdown_scores_not_clamped_counterexample :
    ((calculateQualityScore [maxBoostSignal] [] sampleProspect
        getDefaultWeights).breakdown.map (·.score)) = [393]
  ∧ (calculateQualityScore [maxBoostSignal] [] sampleProspect
      getDefaultWeights).signalScore = 393
  ∧ (calculateQualityScore [maxBoostSignal] [] sampleProspect
      getDefaultWeights).qualityScore = 100 := by
  refine ⟨by decide, by decide, by decide⟩

/-- C5 amended (theorem).  For all inputs the final `qualityScore` is
clamped to [0, 100] and the prospect-fit component is clamped above at
100; the per-signal `finalScore`s in the breakdown and the signal and
pattern components are rounded but NOT clamped and can leave [0, 100]
(see the counterexample). -/
theorem quality_score_clamped (signals : List AnalyzedSignal)
    (patterns : List MatchedPattern) (prospect : Prospect)
    (weights : WeightsConfig) :
    0 ≤ (calculateQualityScore signals patterns prospect weights).qualityScore
  ∧ (calculateQualityScore signals patterns prospect weights).qualityScore ≤ 100
  ∧ (calculateQualityScore signals patterns prospect weights).fitScore ≤ 100 :=
  ⟨le_max_left 0 _, max_le (by norm_num) (min_le_left 100 _), min_le_left 100 _⟩

/-! ## C7 — pattern component of the quality score -/

/-- The matched pattern used in the C7 counterexample: the built-in
`ready_to_buy` pattern's statistics (conversion 87, confidence 0.92,
weight 150). -/
def readyToBuyMatch : MatchedPattern where
  pattern := "ready_to_buy"
  name := "Ready to Buy"
  signals := []
  historicalConversion := 87
  avgDaysToClose := some 7
  reasoning := ""
  confidence := 92 / 100
  matchScore := 70
  weight := 150
  isFalsePositive := false

/-- C7 counterexample.  With the single matched pattern
`readyToBuyMatch` the pattern component is
`round(87 · 0.92 · 1.5 / 0.92) = round(130.5) = 131`, although the only
matched pattern's `historicalConversion` is 87 — every weighted average
of the conversion values would be 87, so the component is NOT a
weighted average of `historicalConversion` values: the denominator sums
bare confidences while the numerator scales them by `weight/100`. -/
theorem pattern_component_counterexample :
    (calculatePatternScore [readyToBuyMatch]).1 = 131
  ∧ readyToBuyMatch.historicalConversion = 87 := by
  refine ⟨by decide, by decide⟩

/-- C7 amended (theorem).  The pattern component is
`round((Σ conversionᵢ · confᵢ · weightᵢ/100) / (Σ confᵢ))` over the
matched patterns — the numerator weights each conversion by confidence
scaled by `weight/100` but the denominator sums the confidences alone
(so it is a true weighted average only when every weight is 100); a
zero confidence falls back to 0.5 and a zero weight to 100; with no
matched pattern the component is the neutral 50. -/
theorem pattern_component_formula (patterns : List MatchedPattern) :
    (patterns = [] → (calculatePatternScore patterns).1 = 50)
  ∧ (patterns ≠ [] → (calculatePatternScore patterns).1 =
      jsRound ((patterns.map (fun p =>
          p.historicalConversion * (if p.confidence = 0 then 1 / 2 else p.confidence) *
            ((if p.weight = 0 then 100 else p.weight) / 100))).sum /
        (patterns.map (fun p =>
          if p.confidence = 0 then 1 / 2 else p.confidence)).sum)) := by
  constructor
  · intro h; subst h; rfl
  · intro h
    rw [calculatePatternScore,
      if_neg (by simpa [List.length_eq_zero] using h)]

/-- C7 witness: `pattern_component_formula` at the empty list and at
the singleton `readyToBuyMatch`. -/
theorem pattern_component_formula_witness :
    (calculatePatternScore []).1 = 50
  ∧ (calculatePatternScore [readyToBuyMatch]).1 =
      jsRound ((([readyToBuyMatch] : List MatchedPattern).map (fun p =>
          p.historicalConversion * (if p.confidence = 0 then 1 / 2 else p.confidence) *
            ((if p.weight = 0 then 100 else p.weight) / 100))).sum /
        (([readyToBuyMatch] : List MatchedPattern).map (fun p =>
          if p.confidence = 0 then 1 / 2 else p.confidence)).sum) :=
  ⟨(pattern_component_formula []).1 rfl,
   (pattern_component_formula [readyToBuyMatch]).2 (by decide)⟩

/-! ## C8 — per-signal enrichment failures are local -/

/-- C8 (confirmed).  `enrichSignalsWithContext` returns one entry per
input signal, in order, whatever the enrichment strategy does: a signal
whose extraction fails is kept unchanged (with its pre-enrichment,
heuristic-only qualitative context), a signal whose extraction succeeds
is enriched by merging the extraction result over its context, and the
function is total — no per-signal failure fails the request or affects
the other signals' entries. -/
theorem enrich_failures_are_local
    (extract : RawSignal → Prospect → Except String LLMExtractionResult)
    (signals : List AnalyzedSignal) (prospect : Prospect) :
    (enrichSignalsWithContext extract signals prospect).length = signals.length
  ∧ (∀ i (hi : i < signals.length) e,
      extract signals[i].rawData prospect = .error e →
        (enrichSignalsWithContext extract signals prospect)[i]? = some signals[i])
  ∧ (∀ i (hi : i < signals.length) ctx,
      extract signals[i].rawData prospect = .ok ctx →
        (enrichSignalsWithContext extract signals prospect)[i]? =
          some { signals[i] with qualitativeContext := mergeContext ctx }) := by
  refine ⟨by simp [enrichSignalsWithContext], ?_, ?_⟩
  · intro i hi e he
    simp [enrichSignalsWithContext, List.getElem?_map,
      List.getElem?_eq_getElem hi, he]
  · intro i hi ctx hok
    simp [enrichSignalsWithContext, List.getElem?_map,
      List.getElem?_eq_getElem hi, hok]

/-- A sample extraction result. -/
def sampleExtraction : LLMExtractionResult where
  painPoints := ["manual data entry"]
  urgency := .high
  specificity := .medium
  buyingStage := .consideration
  sentiment := .negative
  falsePositiveRisk := .low
  confidence := 7 / 10

/-- A sample enrichment strategy failing exactly on `website_visit`
signals. -/
def sampleExtract : RawSignal → Prospect → Except String LLMExtractionResult :=
  fun raw _ =>
    if raw.type == "website_visit" then .error "enrichment failed"
    else .ok sampleExtraction

/-- C8 witness: `enrich_failures_are_local` on a two-signal list whose
second signal's enrichment fails. -/
theorem enrich_failures_are_local_witness :
    (enrichSignalsWithContext sampleExtract
      [sampleSignal "linkedin_engagement" 85, sampleSignal "website_visit" 40]
      sampleProspect).length = 2
  ∧ (enrichSignalsWithContext sampleExtract
      [sampleSignal "linkedin_engagement" 85, sampleSignal "website_visit" 40]
      sampleProspect)[1]? = some (sampleSignal "website_visit" 40)
  ∧ (enrichSignalsWithContext sampleExtract
      [sampleSignal "linkedin_engagement" 85, sampleSignal "website_visit" 40]
      sampleProspect)[0]? = some { sampleSignal "linkedin_engagement" 85 with
        qualitativeContext := mergeContext sampleExtraction } := by
  have h := enrich_failures_are_local sampleExtract
    [sampleSignal "linkedin_engagement" 85, sampleSignal "website_visit" 40]
    sampleProspect
  exact ⟨h.1, h.2.1 1 (by decide) "enrichment failed" rfl,
    h.2.2 0 (by decide) sampleExtraction rfl⟩

/-! ## C9 — recency score -/

/-- C9 (confirmed).  For a positive half-life: a missing timestamp
yields exactly 0.5; a future timestamp (negative `daysAgo`) yields
exactly 1.0; a non-negative `daysAgo` yields exactly
`0.5 ^ (daysAgo / halfLife)` (the clamp is the identity there), which is
0.5 exactly when `daysAgo` equals the half-life; and the result always
lies in [0, 1]. -/
theorem recency_half_life_decay (d : ℤ) (h : ℝ) (hh : 0 < h) :
    calculateRecencyScore none h = 1 / 2
  ∧ (d < 0 → calculateRecencyScore (some d) h = 1)
  ∧ (0 ≤ d → calculateRecencyScore (some d) h = (1 / 2 : ℝ) ^ ((d : ℝ) / h))
  ∧ ((d : ℝ) = h → calculateRecencyScore (some d) h = 1 / 2)
  ∧ 0 ≤ calculateRecencyScore (some d) h
  ∧ calculateRecencyScore (some d) h ≤ 1 := by
  have hpow_pos : ∀ x : ℝ, (0 : ℝ) < (1 / 2 : ℝ) ^ x := fun x =>
    Real.rpow_pos_of_pos (by norm_num) x
  have hpow_le_one : ∀ x : ℝ, 0 ≤ x → (1 / 2 : ℝ) ^ x ≤ 1 := fun x hx =>
    Real.rpow_le_one (by norm_num) (by norm_num) hx
  have key : 0 ≤ d → calculateRecencyScore (some d) h = (1 / 2 : ℝ) ^ ((d : ℝ) / h) := by
    intro hd
    have hnotlt : ¬ d < 0 := not_lt.mpr hd
    have hx : 0 ≤ (d : ℝ) / h :=
      div_nonneg (by exact_mod_cast hd) hh.le
    rw [calculateRecencyScore, if_neg hnotlt,
      min_eq_right (hpow_le_one _ hx), max_eq_right (hpow_pos _).le]
  refine ⟨rfl, ?_, key, ?_, ?_, ?_⟩
  · intro hd
    rw [calculateRecencyScore, if_pos hd]
  · intro hde
    have hd : 0 ≤ d := by
      have : (0 : ℝ) < (d : ℝ) := hde ▸ hh
      exact_mod_cast this.le
    rw [key hd, hde, div_self hh.ne', Real.rpow_one]
  · by_cases hd : d < 0
    · rw [calculateRecencyScore, if_pos hd]; norm_num
    · rw [key (not_lt.mp hd)]
      exact (hpow_pos _).le
  · by_cases hd : d < 0
    · rw [calculateRecencyScore, if_pos hd]
    · rw [key (not_lt.mp hd)]
      exact hpow_le_one _ (div_nonneg (by exact_mod_cast not_lt.mp hd) hh.le)

/-- C9 witness: `recency_half_life_decay` at `daysAgo = halfLife = 7`
(exactly 0.5), at a missing timestamp, and at a future timestamp. -/
theorem recency_half_life_decay_witness :
    calculateRecencyScore none 7 = 1 / 2
  ∧ calculateRecencyScore (some (-1)) 7 = 1
  ∧ calculateRecencyScore (some 7) 7 = 1 / 2 :=
  ⟨(recency_half_life_decay 7 7 (by norm_num)).1,
   (recency_half_life_decay (-1) 7 (by norm_num)).2.1 (by norm_num),
   (recency_half_life_decay 7 7 (by norm_num)).2.2.2.1 (by norm_num)⟩

/-! ## C10 — two-run determinism of the pipeline -/

/-- The recommendation result always carries the observed wall-clock
value verbatim in `metadata.generatedAt` (both the minimal and the full
path stamp it with `new Date().toISOString()`). -/
theorem generateActionRecommendation_generatedAt
    (scoringResult : QualityScoreResult) (enrichedSignals : List AnalyzedSignal)
    (prospect : Prospect) (genMessageOpt : Option Bool)
    (genMsg : Prospect → List AnalyzedSignal → String → Option String →
      List MatchedPattern → String) (now : String) :
    (generateActionRecommendation scoringResult enrichedSignals prospect
      genMessageOpt genMsg now).metadata.generatedAt = now := by
  rw [generateActionRecommendation]
  split_ifs <;> rfl

/-- The scoring result used in the C10 counterexample. -/
def sampleScoring : QualityScoreResult where
  qualityScore := 20
  confidence := .low
  priorityLevel := .ignore
  breakdown := []
  patterns := []
  reasoning := ""
  signalScore := 20
  patternScore := 50
  fitScore := 50
  wSignals := 2 / 5
  wPatterns := 2 / 5
  wFit := 1 / 5

/-- A message generator stub (the message-generation component is out of
the embedded core). -/
def sampleGenMsg : Prospect → List AnalyzedSignal → String → Option String →
    List MatchedPattern → String := fun _ _ _ _ _ => ""

/-- C10 counterexample.  Two runs of the recommendation stage on
byte-identical signals, prospect, configuration and scoring result, with
the deterministic stub strategies, yield DIFFERENT results when the two
invocations observe different wall-clock values — the result embeds the
observation time in `metadata.generatedAt`.  Two successive real
invocations observe different times, so their merged outputs are not
byte-identical. -/
theorem pipeline_two_runs_counterexample :
    generateActionRecommendation sampleScoring [] sampleProspect none sampleGenMsg
        "2026-02-03T10:00:00.000Z" ≠
      generateActionRecommendation sampleScoring [] sampleProspect none sampleGenMsg
        "2026-02-03T10:00:01.000Z" := by
  intro h
  have := congrArg (fun r => r.metadata.generatedAt) h
  simp only [generateActionRecommendation] at this
  revert this
  decide

/-- C10 amended (theorem).  The pipeline is a pure function of
(signals, prospect, configuration, observed wall-clock time) — in the
embedding, runs with equal inputs AND equal observed time are equal by
construction — but any two runs observing different times produce
different merged outputs, because `metadata.generatedAt` records the
observed time verbatim. -/
theorem pipeline_runs_at_distinct_times_differ
    (scoringResult : QualityScoreResult) (enrichedSignals : List AnalyzedSignal)
    (prospect : Prospect) (genMessageOpt : Option Bool)
    (genMsg : Prospect → List AnalyzedSignal → String → Option String →
      List MatchedPattern → String) (t1 t2 : String) (h : t1 ≠ t2) :
    generateActionRecommendation scoringResult enrichedSignals prospect
        genMessageOpt genMsg t1 ≠
      generateActionRecommendation scoringResult enrichedSignals prospect
        genMessageOpt genMsg t2 := by
  intro heq
  apply h
  have h1 := generateActionRecommendation_generatedAt scoringResult enrichedSignals
    prospect genMessageOpt genMsg t1
  have h2 := generateActionRecommendation_generatedAt scoringResult enrichedSignals
    prospect genMessageOpt genMsg t2
  rw [← h1, ← h2, heq]

/-- C10 witness: `pipeline_runs_at_distinct_times_differ` at concrete
inputs and two concrete distinct times. -/
theorem pipeline_runs_at_distinct_times_differ_witness :
    generateActionRecommendation sampleScoring [] sampleProspect none sampleGenMsg
        "2026-02-03T10:00:02.000Z" ≠
      generateActionRecommendation sampleScoring [] sampleProspect none sampleGenMsg
        "2026-02-03T10:00:03.000Z" :=
  pipeline_runs_at_distinct_times_differ sampleScoring [] sampleProspect none
    sampleGenMsg "2026-02-03T10:00:02.000Z" "2026-02-03T10:00:03.000Z" (by decide)

end SignalQuality
